import Mathlib

/-!
Shallow embedding of the Activity Dump Manager
(`pkg/security/probe/activity_dump_manager.go`) of the datadog-agent
security probe, together with proofs of the specified properties.

Time is modelled in abstract nanosecond ticks (`Nat`); kernel monotonic
timestamps are obtained from wall-clock instants by subtracting a boot
time, mirroring `TimeResolver.ComputeMonotonicTimestamp`.  Map keys are
modelled as the strings they encode (the Go code zero-pads them into
fixed-width byte arrays, a pure representation detail).
-/

namespace ADM

/-- One activity dump, as the manager sees it: the selector fields
`containerID`/`comm`, the `start` instant and `timeout` duration used by
cleanup, and the `done` flag set by `Done()` on finalization.
`statsErr` records the outcome of the dump's own `SendStats()`
collaborator call (`none` = success). -/
structure ActivityDump where
  containerID : String
  comm : String
  start : Nat
  timeout : Nat
  differentiateArgs : Bool
  withGraph : Bool
  done : Bool
  statsErr : Option String
  deriving Repr, DecidableEq

/-- Manager configuration relevant to the embedded operations:
`ActivityDumpCgroupsWaitListSize`, `ActivityDumpDefaultDumpTimeout`
(nanoseconds) and the boot time used by the time resolver. -/
structure AdmConfig where
  cgroupsWaitListSize : Nat
  defaultDumpTimeout : Nat
  bootTime : Nat
  deriving Repr, DecidableEq

/-- `TimeResolver.ComputeMonotonicTimestamp`: wall clock to kernel
monotonic clock. -/
def monotonicTimestamp (cfg : AdmConfig) (t : Nat) : Nat :=
  t - cfg.bootTime

/-- Modelled from the spec: `ActivityDump.GetTimeoutRawTimestamp` is not
under `src/`; per the spec the traced-comms value is "the dump's own
timeout instant" as a raw (monotonic) timestamp. -/
def timeoutRawTimestamp (cfg : AdmConfig) (d : ActivityDump) : Nat :=
  monotonicTimestamp cfg (d.start + d.timeout)

/-- The mutable manager state the claims are about: the ordered active
registry and the snapshot queue contents. -/
structure AdmState where
  activeDumps : List ActivityDump
  snapshotQueue : List ActivityDump
  deriving Repr, DecidableEq

/-- Capacity of the snapshot queue: `make(chan *ActivityDump, 100)`. -/
def snapshotQueueCapacity : Nat := 100

/-- A write into one of the kernel-side filter maps. -/
inductive FSWrite where
  | waitList (containerID : String) (value : Nat)
  | tracedComm (comm : String) (value : Nat)
  | tracedPid (pid : Nat) (value : Nat)
  deriving Repr, DecidableEq

/-- Log lines emitted by the embedded manager operations. -/
inductive LogEvent where
  | waitListPutFailed (containerID : String)
  | commPutFailed (comm : String)
  | gaugeFailed
  deriving Repr, DecidableEq

/-- Whether a filter-store write targets the cgroups wait list. -/
def FSWrite.isWaitList : FSWrite → Bool
  | .waitList _ _ => true
  | _ => false

/-! ## Process ancestry (`SearchTracedProcessCacheEntryCallback`) -/

/-- A process cache entry: a pid and the parent chain exposed by
`GetNextAncestorNoFork` (collaborator walk contract).  A `root` entry is
one whose `GetNextAncestorNoFork` is nil. -/
inductive ProcessCacheEntry where
  | root (pid : Nat)
  | child (pid : Nat) (parent : ProcessCacheEntry)
  deriving Repr, DecidableEq

/-- The pid of a process cache entry. -/
def ProcessCacheEntry.pid : ProcessCacheEntry → Nat
  | .root p => p
  | .child p _ => p

/-- `GetNextAncestorNoFork`: the parent link of the entry, nil at the
root. -/
def getNextAncestorNoFork : ProcessCacheEntry → Option ProcessCacheEntry
  | .root _ => none
  | .child _ q => some q

/-- The ancestor-collection loop of
`SearchTracedProcessCacheEntryCallback`: starting from the matched
entry, each parent is prepended to the accumulated list, so the result
is ordered root first. -/
def buildAncestors : ProcessCacheEntry → List ProcessCacheEntry → List ProcessCacheEntry
  | .root p, acc => .root p :: acc
  | .child p q, acc => buildAncestors q (.child p q :: acc)

/-- The ordered list of nodes inserted into the dump tree for one
matched entry: root first, the matched entry last. -/
def computeAncestors (entry : ProcessCacheEntry) : List ProcessCacheEntry :=
  buildAncestors entry []

/-- The chain from the root down to `p`, written as a non-accumulating
recursion; used to reason about `buildAncestors`. -/
def ancChain : ProcessCacheEntry → List ProcessCacheEntry
  | .root p => [.root p]
  | .child p q => ancChain q ++ [.child p q]

/-! ## insertActivityDump -/

/-- Outcome of an insert: the code returns nil on both paths; whether
the candidate was ignored as a duplicate or registered is which return
statement was reached. -/
inductive InsertKind where
  | ignored
  | registered
  deriving Repr, DecidableEq

/-- Outcomes of the two fallible filter-store `Put` calls an insertion
performs (external collaborator results). -/
structure PutOutcomes where
  waitListPutOk : Bool
  commPutOk : Bool
  deriving Repr, DecidableEq

/-- Result of `insertActivityDump`: the new manager state, which path
was taken, the Go return value (`error`), the filter-store writes
attempted and the log lines emitted. -/
structure InsertResult where
  state : AdmState
  kind : InsertKind
  error : Option String
  writes : List FSWrite
  logs : List LogEvent
  deriving Repr, DecidableEq

/-- `insertActivityDump`: sanity-check the selector against every active
dump (ignore on a duplicate non-empty ContainerID or Comm), then push
the kernel-space filters (wait-list entry for a ContainerID selector,
traced-comms entry for a Comm selector; `Put` failures only logged),
walk the process cache seeding traced pids, try a non-blocking enqueue
on the snapshot queue, and append the dump to the active registry.
`walkEntries` is the process-cache contents visited by
`ProcessResolver.Walk`; `nodeMatches` is the dump-internal test of
`FindOrCreateProcessActivityNode` returning a node (collaborator). -/
def insertActivityDump (cfg : AdmConfig) (now : Nat) (st : AdmState)
    (newDump : ActivityDump) (oc : PutOutcomes)
    (walkEntries : List ProcessCacheEntry)
    (nodeMatches : ProcessCacheEntry → Bool) : InsertResult :=
  if newDump.containerID ≠ "" ∧
      st.activeDumps.any (fun d => d.containerID == newDump.containerID) then
    { state := st, kind := .ignored, error := none, writes := [], logs := [] }
  else if newDump.comm ≠ "" ∧
      st.activeDumps.any (fun d => d.comm == newDump.comm) then
    { state := st, kind := .ignored, error := none, writes := [], logs := [] }
  else
    let waitListWrites : List FSWrite :=
      if newDump.containerID ≠ "" then
        [.waitList newDump.containerID
          (monotonicTimestamp cfg
            (now + cfg.cgroupsWaitListSize * cfg.defaultDumpTimeout))]
      else []
    let waitListLogs : List LogEvent :=
      if newDump.containerID ≠ "" ∧ oc.waitListPutOk = false then
        [.waitListPutFailed newDump.containerID]
      else []
    let commWrites : List FSWrite :=
      if newDump.comm ≠ "" then
        [.tracedComm newDump.comm (timeoutRawTimestamp cfg newDump)]
      else []
    let commLogs : List LogEvent :=
      if newDump.comm ≠ "" ∧ oc.commPutOk = false then
        [.commPutFailed newDump.comm]
      else []
    let pidWrites : List FSWrite :=
      walkEntries.flatMap (fun e =>
        (computeAncestors e).filterMap (fun n =>
          if nodeMatches n then
            some (.tracedPid n.pid (timeoutRawTimestamp cfg newDump))
          else none))
    let queue' :=
      if st.snapshotQueue.length < snapshotQueueCapacity then
        st.snapshotQueue ++ [newDump]
      else st.snapshotQueue
    { state := { activeDumps := st.activeDumps ++ [newDump],
                 snapshotQueue := queue' },
      kind := .registered, error := none,
      writes := waitListWrites ++ commWrites ++ pidWrites,
      logs := waitListLogs ++ commLogs }

/-! ## cleanup -/

/-- Whether a dump has expired at wall-clock `now`: the Go test is the
strict `time.Now().After(d.Start.Add(d.Timeout))`. -/
def isExpired (now : Nat) (d : ActivityDump) : Bool :=
  d.start + d.timeout < now

/-- The index-collection loop of `cleanup`: visiting dumps left to
right, the loop prepends each expired dump's index, so this returns the
ascending index list that the loop holds reversed. -/
def expiredIdxsGo (now : Nat) : List ActivityDump → Nat → List Nat
  | [], _ => []
  | d :: ds, i =>
    if isExpired now d then i :: expiredIdxsGo now ds (i + 1)
    else expiredIdxsGo now ds (i + 1)

/-- Result of a `cleanup` run: the new state, the dumps that were
finalized (`Done()` called) and removed, and the filter-store writes the
operation performed (none in the code). -/
structure CleanupResult where
  state : AdmState
  finalized : List ActivityDump
  writes : List FSWrite
  deriving Repr, DecidableEq

/-- `cleanup`: finalize every expired dump, collecting its index
(prepended, hence descending), then splice each collected index out of
the registry. -/
def cleanup (now : Nat) (st : AdmState) : CleanupResult :=
  let toDelete := (expiredIdxsGo now st.activeDumps 0).reverse
  { state := { st with
      activeDumps := toDelete.foldl (fun l i => l.eraseIdx i) st.activeDumps },
    finalized := (st.activeDumps.filter (fun d => isExpired now d)).map
      (fun d => { d with done := true }),
    writes := [] }

/-! ## StopActivityDump -/

/-- Modelled from the spec: `ActivityDump.CommMatches` is not under
`src/`; per the spec the stop scan looks for "the first active dump
whose Comm equals the target". -/
def commMatches (d : ActivityDump) (comm : String) : Bool :=
  d.comm == comm

/-- Result of `StopActivityDump`: the new state, the finalized dump if
one matched, the returned error, and the filter-store writes the
operation performed (none in the code). -/
structure StopResult where
  state : AdmState
  stopped : Option ActivityDump
  error : Option String
  writes : List FSWrite
  deriving Repr, DecidableEq

/-- `StopActivityDump`: scan for the first active dump whose Comm
matches; if found, finalize it and splice it out, returning success;
otherwise return a not-found error with the registry untouched. -/
def stopActivityDump (comm : String) (st : AdmState) : StopResult :=
  match st.activeDumps.findIdx? (fun d => commMatches d comm) with
  | some i =>
    { state := { st with activeDumps := st.activeDumps.eraseIdx i },
      stopped := (st.activeDumps.get? i).map (fun d => { d with done := true }),
      error := none,
      writes := [] }
  | none =>
    { state := st, stopped := none,
      error := some ("the activity dump manager does not contain any ActivityDump with the following comm: " ++ comm),
      writes := [] }

/-! ## DumpActivity and HandleCgroupTracingEvent -/

/-- `api.DumpActivityParams`: the request to start tracing a comm.
`timeout` is in minutes. -/
structure DumpActivityParams where
  comm : String
  timeout : Nat
  differentiateArgs : Bool
  withGraph : Bool
  deriving Repr, DecidableEq

/-- Nanoseconds in a `time.Minute`. -/
def minuteNs : Nat := 60000000000

/-- `SecurityActivityDumpMessage`: either the new dump's metadata or an
error string. -/
inductive DumpMessage where
  | metadata (d : ActivityDump)
  | errorMsg (e : String)
  deriving Repr, DecidableEq

/-- Result of `DumpActivity`: new state, response message, Go error. -/
structure DumpActivityResult where
  state : AdmState
  msg : DumpMessage
  error : Option String
  deriving Repr, DecidableEq

/-- `DumpActivity`: build a Comm-selector dump (Timeout = minutes,
Start = now per the spec's "Start: creation timestamp"), insert it, and
return its metadata on nil insert error or an error message otherwise.
The `NewActivityDump` factory is a collaborator modelled as total. -/
def dumpActivity (cfg : AdmConfig) (now : Nat) (st : AdmState)
    (params : DumpActivityParams) (oc : PutOutcomes)
    (walkEntries : List ProcessCacheEntry)
    (nodeMatches : ProcessCacheEntry → Bool) : DumpActivityResult :=
  let newDump : ActivityDump :=
    { containerID := "", comm := params.comm, start := now,
      timeout := params.timeout * minuteNs,
      differentiateArgs := params.differentiateArgs,
      withGraph := params.withGraph,
      done := false, statsErr := none }
  let res := insertActivityDump cfg now st newDump oc walkEntries nodeMatches
  match res.error with
  | some e =>
    { state := res.state, msg := .errorMsg ("couldn't start tracing: " ++ e),
      error := some ("couldn't start tracing: " ++ e) }
  | none => { state := res.state, msg := .metadata newDump, error := none }

/-- `model.CgroupTracingEvent`: container id plus the raw (monotonic)
expiry timestamp from the kernel. -/
structure CgroupTracingEvent where
  containerID : String
  timeoutRaw : Nat
  deriving Repr, DecidableEq

/-- Whether `HandleCgroupTracingEvent` reached "tracing started" or the
insert-failure branch. -/
inductive CgroupTracingOutcome where
  | started
  | failed
  deriving Repr, DecidableEq

/-- Result of `HandleCgroupTracingEvent`. -/
structure HandleCgroupResult where
  state : AdmState
  outcome : CgroupTracingOutcome
  deriving Repr, DecidableEq

/-- `TimeResolver.ResolveMonotonicTimestamp`: kernel monotonic clock
back to wall clock. -/
def resolveMonotonicTimestamp (cfg : AdmConfig) (t : Nat) : Nat :=
  t + cfg.bootTime

/-- `HandleCgroupTracingEvent`: build a ContainerID-selector dump whose
Timeout converts the event's monotonic expiry into a wall-clock
duration, with DifferentiateArgs and WithGraph forced on, and insert
it. -/
def handleCgroupTracingEvent (cfg : AdmConfig) (now : Nat) (st : AdmState)
    (event : CgroupTracingEvent) (oc : PutOutcomes)
    (walkEntries : List ProcessCacheEntry)
    (nodeMatches : ProcessCacheEntry → Bool) : HandleCgroupResult :=
  let newDump : ActivityDump :=
    { containerID := event.containerID, comm := "", start := now,
      timeout := resolveMonotonicTimestamp cfg event.timeoutRaw - now,
      differentiateArgs := true, withGraph := true,
      done := false, statsErr := none }
  let res := insertActivityDump cfg now st newDump oc walkEntries nodeMatches
  match res.error with
  | some _ => { state := res.state, outcome := .failed }
  | none => { state := res.state, outcome := .started }

/-! ## SendStats -/

/-- Modelled from the spec: `ActivityDump.GetSelectorStr` is not under
`src/`; the selector is the dump's container id or comm (mutually
exclusive identities). -/
def selectorStr (d : ActivityDump) : String :=
  if d.containerID ≠ "" then d.containerID else d.comm

/-- The per-dump loop of `SendStats`: returns the wrapped error of the
first dump whose own stats emission fails, none if all succeed. -/
def sendStatsLoop : List ActivityDump → Option String
  | [] => none
  | d :: ds =>
    match d.statsErr with
    | some e => some ("couldn't send metrics for " ++ selectorStr d ++ ": " ++ e)
    | none => sendStatsLoop ds

/-- Result of `SendStats`: the Go return value, whether the
active-dump-count gauge was emitted and with which value, and the log
lines. -/
structure SendStatsResult where
  error : Option String
  gaugeEmitted : Bool
  gaugeValue : Nat
  logs : List LogEvent
  deriving Repr, DecidableEq

/-- `SendStats`: ask each active dump to emit its own metrics,
returning the first failure immediately; after a fully successful loop
emit the active-dump-count gauge, logging (and swallowing) a gauge
failure. `gaugeOk` is the statsd collaborator outcome. -/
def sendStats (st : AdmState) (gaugeOk : Bool) : SendStatsResult :=
  match sendStatsLoop st.activeDumps with
  | some e => { error := some e, gaugeEmitted := false, gaugeValue := 0, logs := [] }
  | none =>
    { error := none, gaugeEmitted := true,
      gaugeValue := st.activeDumps.length,
      logs := if gaugeOk then [] else [.gaugeFailed] }

/-! ## GenerateProfile -/

/-- Outcomes of the I/O and serialization steps `GenerateProfile`
performs, in program order: `os.Open`, `ioutil.ReadAll`,
`json.Unmarshal`, `ioutil.TempFile`, `os.Chmod`, template `Execute`.
`tempFileName` is the path of the created temp file. -/
structure ProfileGenOutcome where
  openOk : Bool
  readOk : Bool
  parseOk : Bool
  tempFileOk : Bool
  tempFileName : String
  chmodOk : Bool
  templateExecOk : Bool
  deriving Repr, DecidableEq

/-- Result of `GenerateProfile`: the response fields and the permission
bits of the created output file at return time, when one was created
(`ioutil.TempFile` creates mode 0o600; `os.Chmod` then sets 0o400). -/
structure GenerateProfileResult where
  profilePath : Option String
  error : Option String
  createdFileMode : Option Nat
  deriving Repr, DecidableEq

/-- `GenerateProfile`: read and parse the serialized dump, create the
profile output file, chmod it to owner-read-only, render the template
into it, and return its path; every step failure aborts with that
step's error. The function never reads or writes the manager state,
which is threaded through unchanged. -/
def generateProfile (st : AdmState) (o : ProfileGenOutcome) :
    GenerateProfileResult × AdmState :=
  if o.openOk = false then
    ({ profilePath := none, error := some "couldn't open activity dump file",
       createdFileMode := none }, st)
  else if o.readOk = false then
    ({ profilePath := none, error := some "couldn't read activity dump file",
       createdFileMode := none }, st)
  else if o.parseOk = false then
    ({ profilePath := none, error := some "couldn't parse activity dump file",
       createdFileMode := none }, st)
  else if o.tempFileOk = false then
    ({ profilePath := none, error := some "couldn't create profile file",
       createdFileMode := none }, st)
  else if o.chmodOk = false then
    ({ profilePath := none, error := some "couldn't change the mode of the profile file",
       createdFileMode := some 0o600 }, st)
  else if o.templateExecOk = false then
    ({ profilePath := none, error := some "couldn't generate profile",
       createdFileMode := some 0o400 }, st)
  else
    ({ profilePath := some o.tempFileName, error := none,
       createdFileMode := some 0o400 }, st)

/-! ## Registry invariants -/

/-- Invariants I1 and I2: across any two distinct active dumps, equal
ContainerIDs are only possible when empty, and likewise for Comms — at
most one active dump carries a given non-empty ContainerID, and at most
one a given non-empty Comm. -/
def uniqueSelectors (l : List ActivityDump) : Prop :=
  l.Pairwise (fun a b =>
    (a.containerID = b.containerID → a.containerID = "") ∧
    (a.comm = b.comm → a.comm = ""))

/-! ## Concrete sample values used by witnesses and counterexamples -/

/-- A sample configuration. -/
def cfg0 : AdmConfig :=
  { cgroupsWaitListSize := 3, defaultDumpTimeout := 10, bootTime := 0 }

/-- A sample ContainerID-selector dump. -/
def dumpCid : ActivityDump :=
  { containerID := "cid-1", comm := "", start := 0, timeout := 5,
    differentiateArgs := false, withGraph := false, done := false,
    statsErr := none }

/-- A sample Comm-selector dump. -/
def dumpComm : ActivityDump :=
  { containerID := "", comm := "curl", start := 0, timeout := 5,
    differentiateArgs := false, withGraph := false, done := false,
    statsErr := none }

/-- A sample dump whose own stats emission fails. -/
def dumpStatsBad : ActivityDump :=
  { containerID := "", comm := "nginx", start := 0, timeout := 5,
    differentiateArgs := false, withGraph := false, done := false,
    statsErr := some "boom" }

/-- A sample state whose snapshot queue is at capacity. -/
def fullQueueState : AdmState :=
  { activeDumps := [],
    snapshotQueue := List.replicate snapshotQueueCapacity dumpCid }

/-! # Proofs -/

/-! ## insertActivityDump branch shapes -/

theorem insert_ignored_of_conflict (cfg : AdmConfig) (now : Nat)
    (st : AdmState) (newDump : ActivityDump) (oc : PutOutcomes)
    (walkEntries : List ProcessCacheEntry)
    (nodeMatches : ProcessCacheEntry → Bool)
    (h : ∃ a ∈ st.activeDumps,
        (newDump.containerID ≠ "" ∧ a.containerID = newDump.containerID) ∨
        (newDump.comm ≠ "" ∧ a.comm = newDump.comm)) :
    insertActivityDump cfg now st newDump oc walkEntries nodeMatches =
      { state := st, kind := .ignored, error := none, writes := [], logs := [] } := by
  obtain ⟨a, ha, hcase⟩ := h
  unfold insertActivityDump
  split
  · rfl
  · split
    · rfl
    · exfalso
      rename_i h1 h2
      rcases hcase with ⟨hne, heq⟩ | ⟨hne, heq⟩
      · exact h1 ⟨hne, List.any_eq_true.mpr ⟨a, ha, by simp [heq]⟩⟩
      · exact h2 ⟨hne, List.any_eq_true.mpr ⟨a, ha, by simp [heq]⟩⟩

theorem insert_no_conflict_eq (cfg : AdmConfig) (now : Nat)
    (st : AdmState) (newDump : ActivityDump) (oc : PutOutcomes)
    (walkEntries : List ProcessCacheEntry)
    (nodeMatches : ProcessCacheEntry → Bool)
    (hcid : ¬ (newDump.containerID ≠ "" ∧
      st.activeDumps.any (fun d => d.containerID == newDump.containerID)))
    (hcomm : ¬ (newDump.comm ≠ "" ∧
      st.activeDumps.any (fun d => d.comm == newDump.comm))) :
    insertActivityDump cfg now st newDump oc walkEntries nodeMatches =
      { state := { activeDumps := st.activeDumps ++ [newDump],
                   snapshotQueue :=
                     if st.snapshotQueue.length < snapshotQueueCapacity then
                       st.snapshotQueue ++ [newDump]
                     else st.snapshotQueue },
        kind := .registered, error := none,
        writes :=
          (if newDump.containerID ≠ "" then
            [.waitList newDump.containerID
              (monotonicTimestamp cfg
                (now + cfg.cgroupsWaitListSize * cfg.defaultDumpTimeout))]
          else []) ++
          (if newDump.comm ≠ "" then
            [.tracedComm newDump.comm (timeoutRawTimestamp cfg newDump)]
          else []) ++
          walkEntries.flatMap (fun e =>
            (computeAncestors e).filterMap (fun n =>
              if nodeMatches n then
                some (.tracedPid n.pid (timeoutRawTimestamp cfg newDump))
              else none)),
        logs :=
          (if newDump.containerID ≠ "" ∧ oc.waitListPutOk = false then
            [.waitListPutFailed newDump.containerID]
          else []) ++
          (if newDump.comm ≠ "" ∧ oc.commPutOk = false then
            [.commPutFailed newDump.comm]
          else []) } := by
  unfold insertActivityDump
  rw [if_neg hcid, if_neg hcomm]

theorem insert_error_none (cfg : AdmConfig) (now : Nat)
    (st : AdmState) (newDump : ActivityDump) (oc : PutOutcomes)
    (walkEntries : List ProcessCacheEntry)
    (nodeMatches : ProcessCacheEntry → Bool) :
    (insertActivityDump cfg now st newDump oc walkEntries nodeMatches).error = none := by
  unfold insertActivityDump
  split
  · rfl
  · split
    · rfl
    · rfl

/-! ## Ancestry seeding -/

theorem buildAncestors_eq (p : ProcessCacheEntry) :
    ∀ acc, buildAncestors p acc = ancChain p ++ acc := by
  induction p with
  | root pid => intro acc; simp [buildAncestors, ancChain]
  | child pid q ih => intro acc; simp [buildAncestors, ancChain, ih]

theorem computeAncestors_eq_ancChain (p : ProcessCacheEntry) :
    computeAncestors p = ancChain p := by
  simpa using buildAncestors_eq p []

theorem ancChain_getLast? (p : ProcessCacheEntry) :
    (ancChain p).getLast? = some p := by
  cases p with
  | root pid => simp [ancChain]
  | child pid q => simp [ancChain]

theorem ancChain_chain' (p : ProcessCacheEntry) :
    (ancChain p).Chain' (fun a b => getNextAncestorNoFork b = some a) := by
  induction p with
  | root pid => simp [ancChain]
  | child pid q ih =>
    rw [ancChain, List.chain'_append]
    refine ⟨ih, by simp, ?_⟩
    intro x hx y hy
    rw [ancChain_getLast?] at hx
    simp at hx hy
    subst hx; subst hy
    rfl

/-! ## cleanup facts -/

theorem expiredIdxsGo_succ (now : Nat) (l : List ActivityDump) :
    ∀ i, expiredIdxsGo now l (i + 1) = (expiredIdxsGo now l i).map (· + 1) := by
  induction l with
  | nil => intro i; simp [expiredIdxsGo]
  | cons d ds ih =>
    intro i
    by_cases h : isExpired now d <;> simp [expiredIdxsGo, h, ih (i + 1)]

theorem foldl_eraseIdx_map_succ {α : Type} (is : List Nat) :
    ∀ (d : α) (ds : List α),
      (is.map (· + 1)).foldl (fun l i => l.eraseIdx i) (d :: ds) =
        d :: is.foldl (fun l i => l.eraseIdx i) ds := by
  induction is with
  | nil => intro d ds; rfl
  | cons i rest ih =>
    intro d ds
    simp only [List.map_cons, List.foldl_cons, List.eraseIdx_cons_succ]
    exact ih d (ds.eraseIdx i)

theorem cleanup_foldl (now : Nat) :
    ∀ l : List ActivityDump,
      ((expiredIdxsGo now l 0).reverse).foldl (fun l i => l.eraseIdx i) l =
        l.filter (fun d => !isExpired now d) := by
  intro l
  induction l with
  | nil => rfl
  | cons d ds ih =>
    by_cases h : isExpired now d
    · have hgo : expiredIdxsGo now (d :: ds) 0 =
          0 :: (expiredIdxsGo now ds 0).map (· + 1) := by
        simp [expiredIdxsGo, h, expiredIdxsGo_succ now ds 0]
      rw [hgo, List.reverse_cons, List.foldl_append, ← List.map_reverse,
        foldl_eraseIdx_map_succ, ih]
      simp [List.filter_cons, h]
    · have hgo : expiredIdxsGo now (d :: ds) 0 =
          (expiredIdxsGo now ds 0).map (· + 1) := by
        simp [expiredIdxsGo, h, expiredIdxsGo_succ now ds 0]
      rw [hgo, ← List.map_reverse, foldl_eraseIdx_map_succ, ih]
      simp [List.filter_cons, h]

theorem cleanup_activeDumps (now : Nat) (st : AdmState) :
    (cleanup now st).state.activeDumps =
      st.activeDumps.filter (fun d => !isExpired now d) :=
  cleanup_foldl now st.activeDumps

/-! ## Claim C1 -/

/-- Claim C1: inserting a candidate whose non-empty ContainerID (or
non-empty Comm) equals that of an active dump returns the ignored
outcome with no side effects (state unchanged, nil error, no
filter-store writes, no logs), and the uniqueness invariants I1/I2 on
non-empty ContainerIDs and Comms are preserved by insert, cleanup and
stop (the remaining operations do not change the registry
membership). -/
theorem insert_conflict_ignored_and_invariants (cfg : AdmConfig) (now : Nat)
    (st : AdmState) (newDump : ActivityDump) (oc : PutOutcomes)
    (walkEntries : List ProcessCacheEntry)
    (nodeMatches : ProcessCacheEntry → Bool) :
    ((∃ a ∈ st.activeDumps,
        (newDump.containerID ≠ "" ∧ a.containerID = newDump.containerID) ∨
        (newDump.comm ≠ "" ∧ a.comm = newDump.comm)) →
      insertActivityDump cfg now st newDump oc walkEntries nodeMatches =
        { state := st, kind := .ignored, error := none, writes := [], logs := [] }) ∧
    (uniqueSelectors st.activeDumps →
      uniqueSelectors
        (insertActivityDump cfg now st newDump oc walkEntries nodeMatches).state.activeDumps ∧
      (∀ tnow, uniqueSelectors (cleanup tnow st).state.activeDumps) ∧
      (∀ comm, uniqueSelectors (stopActivityDump comm st).state.activeDumps)) := by
  constructor
  · rintro ⟨a, ha, hcase⟩
    unfold insertActivityDump
    split
    · rfl
    · split
      · rfl
      · exfalso
        rename_i h1 h2
        rcases hcase with ⟨hne, heq⟩ | ⟨hne, heq⟩
        · exact h1 ⟨hne, List.any_eq_true.mpr ⟨a, ha, by simp [heq]⟩⟩
        · exact h2 ⟨hne, List.any_eq_true.mpr ⟨a, ha, by simp [heq]⟩⟩
  · intro huniq
    refine ⟨?_, ?_, ?_⟩
    · unfold insertActivityDump
      split
      · exact huniq
      · split
        · exact huniq
        · rename_i h1 h2
          show uniqueSelectors (st.activeDumps ++ [newDump])
          rw [uniqueSelectors, List.pairwise_append]
          refine ⟨huniq, by simp, ?_⟩
          intro a ha b hb
          simp only [List.mem_singleton] at hb
          subst hb
          constructor
          · intro hcid
            by_contra hane
            exact h1 ⟨by rw [← hcid]; exact hane,
              List.any_eq_true.mpr ⟨a, ha, by simp [hcid]⟩⟩
          · intro hcomm
            by_contra hane
            exact h2 ⟨by rw [← hcomm]; exact hane,
              List.any_eq_true.mpr ⟨a, ha, by simp [hcomm]⟩⟩
    · intro tnow
      rw [uniqueSelectors, cleanup_activeDumps]
      exact List.Pairwise.sublist (List.filter_sublist _) huniq
    · intro comm
      unfold stopActivityDump
      split
      · exact List.Pairwise.sublist (List.eraseIdx_sublist _ _) huniq
      · exact huniq

/-- Witness for C1 at a concrete conflicting insert: a second dump with
the already-active ContainerID "cid-1" is ignored, and the invariants
hold after insert, cleanup and stop. -/
theorem insert_conflict_ignored_and_invariants_witness :
    (insertActivityDump cfg0 7 { activeDumps := [dumpCid], snapshotQueue := [] }
        { dumpCid with start := 7 } ⟨true, true⟩ [] (fun _ => false) =
      { state := { activeDumps := [dumpCid], snapshotQueue := [] },
        kind := .ignored, error := none, writes := [], logs := [] }) ∧
    uniqueSelectors
      (insertActivityDump cfg0 7 { activeDumps := [dumpCid], snapshotQueue := [] }
        { dumpCid with start := 7 } ⟨true, true⟩ [] (fun _ => false)).state.activeDumps := by
  have h := insert_conflict_ignored_and_invariants cfg0 7
    { activeDumps := [dumpCid], snapshotQueue := [] }
    { dumpCid with start := 7 } ⟨true, true⟩ [] (fun _ => false)
  refine ⟨h.1 ⟨dumpCid, by simp, Or.inl ⟨by decide, rfl⟩⟩, ?_⟩
  exact (h.2 (by simp [uniqueSelectors])).1

/-! ## Claim C3 -/

/-- Claim C3: ancestry seeding inserts the matched process's chain into
the dump's tree strictly root first — along the insertion sequence each
node after the first is a child of the node inserted immediately before
it (so a child is never inserted before its parent), equivalently node
i+1's `GetNextAncestorNoFork` is node i; and for a concrete chain
root→mid→leaf the insertion sequence is exactly [root, mid, leaf]. -/
theorem ancestry_seeding_root_first (entry : ProcessCacheEntry) :
    (computeAncestors entry).Chain' (fun a b => getNextAncestorNoFork b = some a) ∧
    (∀ i (h : i < (computeAncestors entry).length - 1),
      getNextAncestorNoFork
          ((computeAncestors entry).get ⟨i + 1, by omega⟩) =
        some ((computeAncestors entry).get ⟨i, by omega⟩)) ∧
    (∀ rp mp lp : Nat,
      computeAncestors (.child lp (.child mp (.root rp))) =
        [.root rp, .child mp (.root rp), .child lp (.child mp (.root rp))]) := by
  have hchain : (computeAncestors entry).Chain'
      (fun a b => getNextAncestorNoFork b = some a) := by
    rw [computeAncestors_eq_ancChain]
    exact ancChain_chain' entry
  refine ⟨hchain, ?_, ?_⟩
  · intro i h
    exact List.chain'_iff_get.mp hchain i h
  · intro rp mp lp
    rfl

/-- Witness for C3 at a concrete three-process chain: the adjacency
conclusion instantiated at index 0 of the chain for pid 2 under
pid 1 under root pid 0. -/
theorem ancestry_seeding_root_first_witness :
    getNextAncestorNoFork
        ((computeAncestors (.child 2 (.child 1 (.root 0)))).get ⟨1, by decide⟩) =
      some ((computeAncestors (.child 2 (.child 1 (.root 0)))).get ⟨0, by decide⟩) :=
  (ancestry_seeding_root_first (.child 2 (.child 1 (.root 0)))).2.1 0 (by decide)

/-! ## Claim C2 -/

/-- Claim C2 as stated fails at the expiry boundary: at wall-clock time
equal to Start+Timeout the Go test `time.Now().After(...)` is strict,
so a dump whose expiry instant is less than or equal to now (here equal)
survives cleanup. -/
theorem cleanup_boundary_counterexample :
    dumpCid.start + dumpCid.timeout ≤ 5 ∧
    (cleanup 5 { activeDumps := [dumpCid], snapshotQueue := [] }).state.activeDumps =
      [dumpCid] := ⟨by decide, by rfl⟩

/-- Claim C2 (amended): every run of cleanup finalizes and removes
exactly the active dumps whose expiry instant Start+Timeout is strictly
less than the current wall-clock time, and the removals do not change
the relative order of the surviving dumps (the survivors are the
order-preserving filter of the registry, a sublist of it). -/
theorem cleanup_removes_strictly_expired (now : Nat) (st : AdmState) :
    (cleanup now st).state.activeDumps =
      st.activeDumps.filter (fun d => !isExpired now d) ∧
    ((cleanup now st).state.activeDumps).Sublist st.activeDumps ∧
    (cleanup now st).finalized =
      (st.activeDumps.filter (fun d => isExpired now d)).map
        (fun d => { d with done := true }) := by
  refine ⟨cleanup_activeDumps now st, ?_, rfl⟩
  rw [cleanup_activeDumps]
  exact List.filter_sublist _

/-! ## Claim C4 -/

/-- Claim C4 as stated fails on observability: at a concrete state whose
snapshot queue is at capacity, the insertion drops the snapshot request
(queue unchanged), still registers the dump and returns nil — but emits
no log line at all, so the dropped request is not observable via a log
entry. -/
theorem snapshot_drop_unlogged_counterexample :
    (insertActivityDump cfg0 0 fullQueueState dumpComm ⟨true, true⟩ []
        (fun _ => false)).state.snapshotQueue = fullQueueState.snapshotQueue ∧
    (insertActivityDump cfg0 0 fullQueueState dumpComm ⟨true, true⟩ []
        (fun _ => false)).kind = .registered ∧
    (insertActivityDump cfg0 0 fullQueueState dumpComm ⟨true, true⟩ []
        (fun _ => false)).state.activeDumps = [dumpComm] ∧
    (insertActivityDump cfg0 0 fullQueueState dumpComm ⟨true, true⟩ []
        (fun _ => false)).error = none ∧
    (insertActivityDump cfg0 0 fullQueueState dumpComm ⟨true, true⟩ []
        (fun _ => false)).logs = [] := by
  refine ⟨?_, rfl, rfl, rfl, rfl⟩
  rfl

/-- Claim C4 (amended): the enqueue onto the snapshot queue during a
non-conflicting insertion is non-blocking — when the bounded queue
(capacity 100) is full the snapshot request is dropped (queue
unchanged), the insertion still completes and registers the dump, and
no error is returned.  (The drop is silent: the bare `default` branch
emits no log entry.) -/
theorem snapshot_enqueue_nonblocking (cfg : AdmConfig) (now : Nat)
    (st : AdmState) (newDump : ActivityDump) (oc : PutOutcomes)
    (walkEntries : List ProcessCacheEntry)
    (nodeMatches : ProcessCacheEntry → Bool)
    (hfull : ¬ st.snapshotQueue.length < snapshotQueueCapacity)
    (hcid : ¬ (newDump.containerID ≠ "" ∧
      st.activeDumps.any (fun d => d.containerID == newDump.containerID)))
    (hcomm : ¬ (newDump.comm ≠ "" ∧
      st.activeDumps.any (fun d => d.comm == newDump.comm))) :
    (insertActivityDump cfg now st newDump oc walkEntries nodeMatches).state.snapshotQueue =
      st.snapshotQueue ∧
    (insertActivityDump cfg now st newDump oc walkEntries nodeMatches).kind = .registered ∧
    (insertActivityDump cfg now st newDump oc walkEntries nodeMatches).state.activeDumps =
      st.activeDumps ++ [newDump] ∧
    (insertActivityDump cfg now st newDump oc walkEntries nodeMatches).error = none := by
  rw [insert_no_conflict_eq cfg now st newDump oc walkEntries nodeMatches hcid hcomm]
  refine ⟨?_, rfl, rfl, rfl⟩
  exact if_neg hfull

/-- Witness for C4 (amended) at a concrete full queue: the 101st
snapshot request is dropped while the insertion registers the dump with
nil error. -/
theorem snapshot_enqueue_nonblocking_witness :
    (insertActivityDump cfg0 3 fullQueueState dumpComm ⟨true, true⟩ []
        (fun _ => false)).state.snapshotQueue = fullQueueState.snapshotQueue ∧
    (insertActivityDump cfg0 3 fullQueueState dumpComm ⟨true, true⟩ []
        (fun _ => false)).kind = .registered ∧
    (insertActivityDump cfg0 3 fullQueueState dumpComm ⟨true, true⟩ []
        (fun _ => false)).state.activeDumps =
      fullQueueState.activeDumps ++ [dumpComm] ∧
    (insertActivityDump cfg0 3 fullQueueState dumpComm ⟨true, true⟩ []
        (fun _ => false)).error = none :=
  snapshot_enqueue_nonblocking cfg0 3 fullQueueState dumpComm ⟨true, true⟩ []
    (fun _ => false) (by decide) (by decide) (by decide)

/-! ## Claim C5 -/

theorem findIdx?_first_match {α : Type} {p : α → Bool} :
    ∀ (l₁ : List α) (m : α) (l₂ : List α),
      (∀ x ∈ l₁, p x = false) → p m = true →
      (l₁ ++ m :: l₂).findIdx? p = some l₁.length := by
  intro l₁
  induction l₁ with
  | nil => intro m l₂ _ hm; simp [hm]
  | cons a l ih =>
    intro m l₂ h hm
    have ha := h a (by simp)
    have hrest := ih m l₂ (fun x hx => h x (by simp [hx])) hm
    simp [List.findIdx?_cons, ha, List.findIdx?_succ, hrest]

theorem eraseIdx_append_middle {α : Type} :
    ∀ (l₁ : List α) (m : α) (l₂ : List α),
      (l₁ ++ m :: l₂).eraseIdx l₁.length = l₁ ++ l₂ := by
  intro l₁
  induction l₁ with
  | nil => intro m l₂; rfl
  | cons a l ih => intro m l₂; simp [List.eraseIdx_cons_succ, ih m l₂]

theorem get?_append_middle {α : Type} :
    ∀ (l₁ : List α) (m : α) (l₂ : List α),
      (l₁ ++ m :: l₂).get? l₁.length = some m := by
  intro l₁
  induction l₁ with
  | nil => intro m l₂; rfl
  | cons a l ih => intro m l₂; simpa using ih m l₂

/-- Claim C5: StopActivityDump finalizes and removes exactly the first
active dump whose Comm matches the target, preserving the order of the
remaining entries (the result is a sublist) and returning success with
no error; and when no active dump matches it returns the not-found
error with the registry unchanged. -/
theorem stop_first_match_or_not_found (comm : String) (st : AdmState) :
    ((∀ d ∈ st.activeDumps, commMatches d comm = false) →
      stopActivityDump comm st =
        { state := st, stopped := none,
          error := some ("the activity dump manager does not contain any ActivityDump with the following comm: " ++ comm),
          writes := [] }) ∧
    (∀ l₁ m l₂, st.activeDumps = l₁ ++ m :: l₂ →
      (∀ d ∈ l₁, commMatches d comm = false) → commMatches m comm = true →
      (stopActivityDump comm st).state.activeDumps = l₁ ++ l₂ ∧
      (stopActivityDump comm st).error = none ∧
      (stopActivityDump comm st).stopped = some { m with done := true } ∧
      ((stopActivityDump comm st).state.activeDumps).Sublist st.activeDumps ∧
      (stopActivityDump comm st).state.snapshotQueue = st.snapshotQueue) := by
  constructor
  · intro h
    have hnone : st.activeDumps.findIdx? (fun d => commMatches d comm) = none :=
      List.findIdx?_eq_none_iff.mpr h
    unfold stopActivityDump
    rw [hnone]
  · intro l₁ m l₂ hsplit h hm
    have hidx : st.activeDumps.findIdx? (fun d => commMatches d comm) =
        some l₁.length := by
      rw [hsplit]; exact findIdx?_first_match l₁ m l₂ h hm
    have hstop : stopActivityDump comm st =
        { state := { st with activeDumps := st.activeDumps.eraseIdx l₁.length },
          stopped := (st.activeDumps.get? l₁.length).map
            (fun d => { d with done := true }),
          error := none, writes := [] } := by
      unfold stopActivityDump
      rw [hidx]
    rw [hstop]
    refine ⟨?_, rfl, ?_, ?_, rfl⟩
    · rw [hsplit]; exact eraseIdx_append_middle l₁ m l₂
    · rw [hsplit, get?_append_middle l₁ m l₂]; rfl
    · exact List.eraseIdx_sublist _ _

/-- Witness for C5: stopping "curl" removes exactly the matching second
dump, and stopping "nginx" with no match leaves the registry unchanged
with a not-found error. -/
theorem stop_first_match_or_not_found_witness :
    ((stopActivityDump "curl"
        { activeDumps := [dumpCid, dumpComm], snapshotQueue := [] }).state.activeDumps =
      [dumpCid] ∧
     (stopActivityDump "curl"
        { activeDumps := [dumpCid, dumpComm], snapshotQueue := [] }).error = none) ∧
    stopActivityDump "nginx"
        { activeDumps := [dumpCid, dumpComm], snapshotQueue := [] } =
      { state := { activeDumps := [dumpCid, dumpComm], snapshotQueue := [] },
        stopped := none,
        error := some ("the activity dump manager does not contain any ActivityDump with the following comm: " ++ "nginx"),
        writes := [] } := by
  have h1 := (stop_first_match_or_not_found "curl"
    { activeDumps := [dumpCid, dumpComm], snapshotQueue := [] }).2
    [dumpCid] dumpComm [] rfl (by decide) (by decide)
  have h2 := (stop_first_match_or_not_found "nginx"
    { activeDumps := [dumpCid, dumpComm], snapshotQueue := [] }).1 (by decide)
  exact ⟨⟨h1.1, h1.2.1⟩, h2⟩

/-! ## Claim C6 -/

/-- Claim C6: for every non-conflicting insertion, a failure of the
wait-list Put or of the traced-comms Put does not abort the insertion —
the dump is still appended to the active registry with nil error, and
each failure leaves a log line. -/
theorem filter_put_failure_does_not_abort (cfg : AdmConfig) (now : Nat)
    (st : AdmState) (newDump : ActivityDump) (oc : PutOutcomes)
    (walkEntries : List ProcessCacheEntry)
    (nodeMatches : ProcessCacheEntry → Bool)
    (hcid : ¬ (newDump.containerID ≠ "" ∧
      st.activeDumps.any (fun d => d.containerID == newDump.containerID)))
    (hcomm : ¬ (newDump.comm ≠ "" ∧
      st.activeDumps.any (fun d => d.comm == newDump.comm))) :
    (insertActivityDump cfg now st newDump oc walkEntries nodeMatches).kind =
      .registered ∧
    (insertActivityDump cfg now st newDump oc walkEntries nodeMatches).state.activeDumps =
      st.activeDumps ++ [newDump] ∧
    (insertActivityDump cfg now st newDump oc walkEntries nodeMatches).error = none ∧
    (newDump.containerID ≠ "" → oc.waitListPutOk = false →
      LogEvent.waitListPutFailed newDump.containerID ∈
        (insertActivityDump cfg now st newDump oc walkEntries nodeMatches).logs) ∧
    (newDump.comm ≠ "" → oc.commPutOk = false →
      LogEvent.commPutFailed newDump.comm ∈
        (insertActivityDump cfg now st newDump oc walkEntries nodeMatches).logs) := by
  rw [insert_no_conflict_eq cfg now st newDump oc walkEntries nodeMatches hcid hcomm]
  refine ⟨rfl, rfl, rfl, ?_, ?_⟩
  · intro h1 h2
    simp [h1, h2]
  · intro h1 h2
    simp [h1, h2]

/-- Witness for C6: inserting the Comm dump "curl" with a failing
traced-comms Put still registers the dump with nil error and logs the
failure. -/
theorem filter_put_failure_does_not_abort_witness :
    (insertActivityDump cfg0 0 { activeDumps := [], snapshotQueue := [] }
        dumpComm ⟨true, false⟩ [] (fun _ => false)).state.activeDumps = [dumpComm] ∧
    (insertActivityDump cfg0 0 { activeDumps := [], snapshotQueue := [] }
        dumpComm ⟨true, false⟩ [] (fun _ => false)).error = none ∧
    LogEvent.commPutFailed dumpComm.comm ∈
      (insertActivityDump cfg0 0 { activeDumps := [], snapshotQueue := [] }
        dumpComm ⟨true, false⟩ [] (fun _ => false)).logs ∧
    LogEvent.waitListPutFailed dumpCid.containerID ∈
      (insertActivityDump cfg0 0 { activeDumps := [], snapshotQueue := [] }
        dumpCid ⟨false, true⟩ [] (fun _ => false)).logs := by
  have h := filter_put_failure_does_not_abort cfg0 0
    { activeDumps := [], snapshotQueue := [] } dumpComm ⟨true, false⟩ []
    (fun _ => false) (by decide) (by decide)
  have h' := filter_put_failure_does_not_abort cfg0 0
    { activeDumps := [], snapshotQueue := [] } dumpCid ⟨false, true⟩ []
    (fun _ => false) (by decide) (by decide)
  exact ⟨h.2.1, h.2.2.1, h.2.2.2.2 (by decide) rfl, h'.2.2.2.1 (by decide) rfl⟩

/-! ## Claim C7 -/

theorem pid_writes_no_waitlist (walkEntries : List ProcessCacheEntry)
    (nodeMatches : ProcessCacheEntry → Bool) (v : Nat) :
    (walkEntries.flatMap (fun e =>
      (computeAncestors e).filterMap (fun n =>
        if nodeMatches n then some (FSWrite.tracedPid n.pid v) else none))).filter
      (fun w => w.isWaitList) = [] := by
  rw [List.filter_eq_nil_iff]
  intro w hw
  simp only [List.mem_flatMap, List.mem_filterMap] at hw
  obtain ⟨e, _, n, _, hn⟩ := hw
  by_cases h : nodeMatches n
  · rw [if_pos h] at hn
    cases hn
    simp [FSWrite.isWaitList]
  · rw [if_neg h] at hn
    cases hn

/-- Claim C7: a non-conflicting insertion of a dump with a non-empty
ContainerID performs exactly one cgroups-wait-list write, whose value is
the (monotonic) expiry timestamp now + waitListSize × defaultTimeout;
an insertion with an empty ContainerID (a Comm-selector dump) performs
none; and the wait list is never refreshed afterwards — cleanup and
stop perform no filter-store writes at all. -/
theorem waitlist_written_exactly_once (cfg : AdmConfig) (now : Nat)
    (st : AdmState) (newDump : ActivityDump) (oc : PutOutcomes)
    (walkEntries : List ProcessCacheEntry)
    (nodeMatches : ProcessCacheEntry → Bool)
    (hcid : ¬ (newDump.containerID ≠ "" ∧
      st.activeDumps.any (fun d => d.containerID == newDump.containerID)))
    (hcomm : ¬ (newDump.comm ≠ "" ∧
      st.activeDumps.any (fun d => d.comm == newDump.comm))) :
    (newDump.containerID ≠ "" →
      ((insertActivityDump cfg now st newDump oc walkEntries nodeMatches).writes.filter
        (fun w => w.isWaitList)) =
        [.waitList newDump.containerID
          (monotonicTimestamp cfg
            (now + cfg.cgroupsWaitListSize * cfg.defaultDumpTimeout))]) ∧
    (newDump.containerID = "" →
      ((insertActivityDump cfg now st newDump oc walkEntries nodeMatches).writes.filter
        (fun w => w.isWaitList)) = []) ∧
    (∀ tnow, (cleanup tnow st).writes = []) ∧
    (∀ c, (stopActivityDump c st).writes = []) := by
  rw [insert_no_conflict_eq cfg now st newDump oc walkEntries nodeMatches hcid hcomm]
  refine ⟨?_, ?_, fun tnow => rfl, ?_⟩
  · intro h
    rw [List.filter_append, List.filter_append, pid_writes_no_waitlist]
    by_cases hc : newDump.comm ≠ "" <;> simp [h, hc, FSWrite.isWaitList]
  · intro h
    rw [List.filter_append, List.filter_append, pid_writes_no_waitlist]
    by_cases hc : newDump.comm ≠ "" <;> simp [h, hc, FSWrite.isWaitList]
  · intro c
    unfold stopActivityDump
    split
    · rfl
    · rfl

/-- Witness for C7: the concrete ContainerID dump gets exactly one
wait-list write with the computed expiry, and the concrete Comm dump
gets none. -/
theorem waitlist_written_exactly_once_witness :
    ((insertActivityDump cfg0 2 { activeDumps := [], snapshotQueue := [] }
        dumpCid ⟨true, true⟩ [] (fun _ => false)).writes.filter
      (fun w => w.isWaitList)) =
      [.waitList dumpCid.containerID
        (monotonicTimestamp cfg0
          (2 + cfg0.cgroupsWaitListSize * cfg0.defaultDumpTimeout))] ∧
    ((insertActivityDump cfg0 2 { activeDumps := [], snapshotQueue := [] }
        dumpComm ⟨true, true⟩ [] (fun _ => false)).writes.filter
      (fun w => w.isWaitList)) = [] := by
  have h1 := waitlist_written_exactly_once cfg0 2
    { activeDumps := [], snapshotQueue := [] } dumpCid ⟨true, true⟩ []
    (fun _ => false) (by decide) (by decide)
  have h2 := waitlist_written_exactly_once cfg0 2
    { activeDumps := [], snapshotQueue := [] } dumpComm ⟨true, true⟩ []
    (fun _ => false) (by decide) (by decide)
  exact ⟨h1.1 (by decide), h2.2.1 (by decide)⟩

/-! ## Claim C8 -/

theorem sendStatsLoop_all_ok :
    ∀ l : List ActivityDump, (∀ x ∈ l, x.statsErr = none) →
      sendStatsLoop l = none := by
  intro l
  induction l with
  | nil => intro _; rfl
  | cons d ds ih =>
    intro h
    have hd := h d (by simp)
    simp only [sendStatsLoop, hd]
    exact ih (fun x hx => h x (by simp [hx]))

theorem sendStatsLoop_first_err :
    ∀ (l₁ : List ActivityDump) (d : ActivityDump) (l₂ : List ActivityDump) (e : String),
      (∀ x ∈ l₁, x.statsErr = none) → d.statsErr = some e →
      sendStatsLoop (l₁ ++ d :: l₂) =
        some ("couldn't send metrics for " ++ selectorStr d ++ ": " ++ e) := by
  intro l₁
  induction l₁ with
  | nil =>
    intro d l₂ e _ hd
    simp [sendStatsLoop, hd]
  | cons a l ih =>
    intro d l₂ e h hd
    have ha := h a (by simp)
    simp only [List.cons_append, sendStatsLoop, ha]
    exact ih d l₂ e (fun x hx => h x (by simp [hx])) hd

/-- Claim C8: SendStats walks the active dumps asking each to emit its
metrics, and the first per-dump failure aborts the whole call with that
(wrapped) error before the gauge is emitted; after a fully successful
loop the active-dump-count gauge is emitted with the registry size, a
failure of only the gauge emission is logged and swallowed, and the
call returns nil. -/
theorem sendStats_fail_fast (st : AdmState) (gaugeOk : Bool) :
    (∀ l₁ d l₂ e, st.activeDumps = l₁ ++ d :: l₂ →
      (∀ x ∈ l₁, x.statsErr = none) → d.statsErr = some e →
      sendStats st gaugeOk =
        { error := some ("couldn't send metrics for " ++ selectorStr d ++ ": " ++ e),
          gaugeEmitted := false, gaugeValue := 0, logs := [] }) ∧
    ((∀ x ∈ st.activeDumps, x.statsErr = none) →
      sendStats st gaugeOk =
        { error := none, gaugeEmitted := true,
          gaugeValue := st.activeDumps.length,
          logs := if gaugeOk then [] else [.gaugeFailed] }) := by
  constructor
  · intro l₁ d l₂ e hsplit h hd
    unfold sendStats
    rw [hsplit, sendStatsLoop_first_err l₁ d l₂ e h hd]
  · intro h
    unfold sendStats
    rw [sendStatsLoop_all_ok st.activeDumps h]

/-- Witness for C8: with dumps [curl-ok, nginx-failing] the call
aborts with the nginx error; with only the healthy dump and a failing
gauge it returns nil, emits the gauge with value 1 and logs the gauge
failure. -/
theorem sendStats_fail_fast_witness :
    sendStats { activeDumps := [dumpComm, dumpStatsBad], snapshotQueue := [] } true =
      { error := some ("couldn't send metrics for " ++ selectorStr dumpStatsBad ++ ": " ++ "boom"),
        gaugeEmitted := false, gaugeValue := 0, logs := [] } ∧
    sendStats { activeDumps := [dumpComm], snapshotQueue := [] } false =
      { error := none, gaugeEmitted := true, gaugeValue := 1,
        logs := if false then [] else [.gaugeFailed] } := by
  have h1 := (sendStats_fail_fast
    { activeDumps := [dumpComm, dumpStatsBad], snapshotQueue := [] } true).1
    [dumpComm] dumpStatsBad [] "boom" rfl (by decide) rfl
  have h2 := (sendStats_fail_fast
    { activeDumps := [dumpComm], snapshotQueue := [] } false).2 (by decide)
  exact ⟨h1, h2⟩

/-! ## Claim C9 -/

/-- Claim C9: GenerateProfile never touches the manager state, which it
returns unchanged in every case; when every I/O, parse, and
serialization step succeeds it returns the created file's path with nil
error and the file's permission bits are 0o400 (owner read only); and
when any step fails the call aborts with that error and no path. -/
theorem generateProfile_pure_and_restricted (st : AdmState)
    (o : ProfileGenOutcome) :
    (generateProfile st o).2 = st ∧
    (o.openOk = true → o.readOk = true → o.parseOk = true →
     o.tempFileOk = true → o.chmodOk = true → o.templateExecOk = true →
      (generateProfile st o).1 =
        { profilePath := some o.tempFileName, error := none,
          createdFileMode := some 0o400 }) ∧
    (¬ (o.openOk = true ∧ o.readOk = true ∧ o.parseOk = true ∧
        o.tempFileOk = true ∧ o.chmodOk = true ∧ o.templateExecOk = true) →
      ((generateProfile st o).1.error.isSome ∧
       (generateProfile st o).1.profilePath = none)) := by
  obtain ⟨o1, o2, o3, o4, name, o5, o6⟩ := o
  cases o1 <;> cases o2 <;> cases o3 <;> cases o4 <;> cases o5 <;> cases o6 <;>
    simp [generateProfile]

/-- Witness for C9 on a fully successful run: the state is unchanged
and the profile file at "/tmp/profile-x" is created with mode 0o400. -/
theorem generateProfile_pure_and_restricted_witness :
    (generateProfile { activeDumps := [dumpComm], snapshotQueue := [] }
        ⟨true, true, true, true, "/tmp/profile-x", true, true⟩).2 =
      { activeDumps := [dumpComm], snapshotQueue := [] } ∧
    (generateProfile { activeDumps := [dumpComm], snapshotQueue := [] }
        ⟨true, true, true, true, "/tmp/profile-x", true, true⟩).1 =
      { profilePath := some "/tmp/profile-x", error := none,
        createdFileMode := some 0o400 } ∧
    ((generateProfile { activeDumps := [dumpComm], snapshotQueue := [] }
        ⟨true, true, false, true, "/tmp/profile-x", true, true⟩).1.error.isSome ∧
     (generateProfile { activeDumps := [dumpComm], snapshotQueue := [] }
        ⟨true, true, false, true, "/tmp/profile-x", true, true⟩).1.profilePath =
       none) := by
  have h := generateProfile_pure_and_restricted
    { activeDumps := [dumpComm], snapshotQueue := [] }
    ⟨true, true, true, true, "/tmp/profile-x", true, true⟩
  have h' := generateProfile_pure_and_restricted
    { activeDumps := [dumpComm], snapshotQueue := [] }
    ⟨true, true, false, true, "/tmp/profile-x", true, true⟩
  exact ⟨h.1, h.2.1 rfl rfl rfl rfl rfl rfl, h'.2.2 (by simp)⟩

/-! ## Claim C10 -/

/-- Claim C10: insertActivityDump returns nil for every candidate, both
when it registers and when it ignores a duplicate, so the
insert-failure branches of DumpActivity and HandleCgroupTracingEvent
are unreachable (HandleCgroupTracingEvent always reaches "tracing
started"), and a DumpActivity request whose non-empty Comm duplicates
an active dump returns the success metadata message even though the
registry is unchanged. -/
theorem insert_never_fails_dup_reports_success (cfg : AdmConfig) (now : Nat) :
    (∀ st newDump oc walkEntries nodeMatches,
      (insertActivityDump cfg now st newDump oc walkEntries nodeMatches).error =
        none) ∧
    (∀ st event oc walkEntries nodeMatches,
      (handleCgroupTracingEvent cfg now st event oc walkEntries nodeMatches).outcome =
        .started) ∧
    (∀ (st : AdmState) (params : DumpActivityParams) oc walkEntries nodeMatches,
      params.comm ≠ "" →
      (∃ a ∈ st.activeDumps, a.comm = params.comm) →
      (dumpActivity cfg now st params oc walkEntries nodeMatches).msg =
        .metadata
          { containerID := "", comm := params.comm, start := now,
            timeout := params.timeout * minuteNs,
            differentiateArgs := params.differentiateArgs,
            withGraph := params.withGraph, done := false, statsErr := none } ∧
      (dumpActivity cfg now st params oc walkEntries nodeMatches).error = none ∧
      (dumpActivity cfg now st params oc walkEntries nodeMatches).state = st) := by
  refine ⟨?_, ?_, ?_⟩
  · intro st newDump oc walkEntries nodeMatches
    exact insert_error_none cfg now st newDump oc walkEntries nodeMatches
  · intro st event oc walkEntries nodeMatches
    simp only [handleCgroupTracingEvent, insert_error_none]
  · intro st params oc walkEntries nodeMatches hne ⟨a, ha, heq⟩
    have hins := insert_ignored_of_conflict cfg now st
      { containerID := "", comm := params.comm, start := now,
        timeout := params.timeout * minuteNs,
        differentiateArgs := params.differentiateArgs,
        withGraph := params.withGraph, done := false, statsErr := none }
      oc walkEntries nodeMatches ⟨a, ha, Or.inr ⟨hne, heq⟩⟩
    simp [dumpActivity, hins]

/-- Witness for C10 at a concrete duplicate: requesting a dump for the
already-active comm "curl" yields the success metadata message, nil
error and an unchanged registry. -/
theorem insert_never_fails_dup_reports_success_witness :
    (dumpActivity cfg0 9 { activeDumps := [dumpComm], snapshotQueue := [] }
        ⟨"curl", 1, false, false⟩ ⟨true, true⟩ [] (fun _ => false)).msg =
      .metadata
        { containerID := "", comm := "curl", start := 9,
          timeout := 1 * minuteNs, differentiateArgs := false,
          withGraph := false, done := false, statsErr := none } ∧
    (dumpActivity cfg0 9 { activeDumps := [dumpComm], snapshotQueue := [] }
        ⟨"curl", 1, false, false⟩ ⟨true, true⟩ [] (fun _ => false)).state =
      { activeDumps := [dumpComm], snapshotQueue := [] } := by
  have h := (insert_never_fails_dup_reports_success cfg0 9).2.2
    { activeDumps := [dumpComm], snapshotQueue := [] }
    ⟨"curl", 1, false, false⟩ ⟨true, true⟩ [] (fun _ => false)
    (by decide) ⟨dumpComm, by simp, rfl⟩
  exact ⟨h.1, h.2.2⟩

end ADM
